import Mathlib

/-!
Shallow embedding of `src/business_central_api_client.py`, the single
source file of the `business-central-api-python` repository.

Modelling conventions:

* Python strings are Lean `String`s; a Python-falsy optional argument
  (`None` or the empty string) is modelled as `none`, a truthy one as
  `some s`.
* A Python `dict` used as a parameter map is an association list
  `List (String × String)`; `dict.update` keeps the position of an
  existing key and appends a fresh one, which `updateParam` mirrors.
* Exceptions are explicit: `ApiError` has one constructor per raise
  site reachable in the source (`Exception` in `get_oauth_token`,
  `requests.exceptions.HTTPError` from `raise_for_status`, Python's
  `TypeError` from applying unary plus to a `str`, `KeyError`, and a
  transport-level failure).
* The HTTP transport (`requests.Session.request` of the superclass) is
  modelled as a finite script of responses consumed in call order,
  together with a log of the requests issued, so that theorems can
  speak about which requests the client sends.
* `requests.Response.json()` re-parses the body on every call and
  returns a fresh object; mutating the returned object therefore never
  changes what a later `.json()` call returns.  The pagination loop of
  `request` is translated with that semantics.
-/

namespace BusinessCentralAPIClient

/-- Parameter maps built by `create_parameters` (Python `dict` as an
association list, insertion ordered). -/
abbrev Params := List (String × String)

/-- One constructor per exception reachable in the source:
`authenticationError` is the `Exception` raised by `get_oauth_token`
when the identity response has no access token; `httpError` is
`requests.exceptions.HTTPError` raised by `raise_for_status`;
`typeError` is Python's `TypeError` raised by applying unary plus to a
`str` (the `=+` lines of `create_parameters`); `keyError` is a missing
dictionary key; `transportError` is a network-level failure (here: the
response script is exhausted). -/
inductive ApiError where
  | authenticationError
  | keyError (key : String)
  | httpError (status : Nat)
  | typeError
  | transportError
  deriving DecidableEq

/-- Parsed JSON body of a list response: the `value` array (records kept
opaque as strings) and the optional `@odata.nextLink` continuation URL. -/
structure Body where
  value : List String
  nextLink : Option String
  deriving DecidableEq

/-- An HTTP response: status code and parsed JSON body. -/
structure HttpResponse where
  status : Nat
  body : Body
  deriving DecidableEq

/-- An HTTP request as handed to the underlying transport
(`super().request(url=..., method=..., headers=..., params=...)`). -/
structure Request where
  url : String
  method : String
  headers : List (String × String)
  params : Option Params
  deriving DecidableEq

/-- The JSON returned by the identity service
(`acquire_token_for_client`): both keys are optional, an error shape
lacks `access_token`. -/
structure TokenResponse where
  access_token : Option String
  token_type : Option String
  deriving DecidableEq

/-- The mutable state of the client object: the stored token fields and
the session headers (`self.access_token`, `self.token_type`,
`self.headers`).  Only entries explicitly set by the source are kept in
`headers`. -/
structure ClientState where
  access_token : String
  token_type : String
  headers : List (String × String)
  deriving DecidableEq

/-- Python `dict.update {k : v}` on an association list: replace in
place when the key is present, append otherwise. -/
def updateParam (ps : Params) (k v : String) : Params :=
  if ps.any (fun p => p.1 = k) then
    ps.map (fun p => if p.1 = k then (k, v) else p)
  else
    ps ++ [(k, v)]

/-- Python `k in dict` membership test. -/
def hasKey (ps : Params) (k : String) : Bool :=
  ps.any (fun p => p.1 = k)

/-- Shorthand for a conditional `dict.update` guarded by an `if x:`
truthiness test in the source. -/
def optUpdate (ps : Params) (k : String) (o : Option String) : Params :=
  match o with
  | none => ps
  | some v => updateParam ps k v

/-- The `modifiedAt` branch of `create_parameters`.  When a `$filter`
entry already exists the source executes
`self.params[$filter] =+ f(...)`, i.e. it assigns the result of unary
plus applied to a `str`, which raises `TypeError`; otherwise it inserts
the `systemModifiedAt` clause. -/
def filterStepModified (ps : Params) (modifiedAt : Option String) :
    Except ApiError Params :=
  match modifiedAt with
  | none => Except.ok ps
  | some v =>
      if hasKey ps "$filter" then Except.error ApiError.typeError
      else Except.ok (updateParam ps "$filter" ("systemModifiedAt gt " ++ v))

/-- The `filterExpression` branch of `create_parameters`: same `=+`
slip when a `$filter` entry already exists, otherwise the expression
becomes the filter verbatim. -/
def filterStepExpression (ps : Params) (filterExpression : Option String) :
    Except ApiError Params :=
  match filterExpression with
  | none => Except.ok ps
  | some v =>
      if hasKey ps "$filter" then Except.error ApiError.typeError
      else Except.ok (updateParam ps "$filter" v)

/-- `create_parameters` of the source.  The source mutates `self.params`
and returns `None`; the model returns the resulting map, and the
`TypeError` raised by the `=+` lines is an explicit error. -/
def create_parameters (createdAt modifiedAt orderBy select offset limit
    filterExpression : Option String) : Except ApiError Params :=
  let ps : Params :=
    optUpdate [] "$filter" (createdAt.map (fun v => "systemCreatedAt gt " ++ v))
  match filterStepModified ps modifiedAt with
  | Except.error e => Except.error e
  | Except.ok ps1 =>
      let ps2 := optUpdate ps1 "$orderby" orderBy
      let ps3 := optUpdate ps2 "$select" select
      let ps4 := optUpdate ps3 "$skip" offset
      let ps5 := optUpdate ps4 "$top" limit
      filterStepExpression ps5 filterExpression

/-- `get_oauth_token` of the source, applied to the identity-service
response.  The source mutates `self.access_token` and
`self.token_type`; the model returns the updated state together with
the exception raised, if any.  Note that the source never touches
`self.headers` here.  When `access_token` is missing the source raises
its `Exception` (modelled as `authenticationError`) before any
assignment; when `access_token` is present but `token_type` is missing,
`self.access_token` has already been assigned when the `KeyError`
fires. -/
def get_oauth_token (resp : TokenResponse) (st : ClientState) :
    ClientState × Option ApiError :=
  match resp.access_token with
  | some tok =>
      match resp.token_type with
      | some ty =>
          ({ st with access_token := tok, token_type := ty }, none)
      | none =>
          ({ st with access_token := tok }, some (ApiError.keyError "token_type"))
  | none => (st, some ApiError.authenticationError)

/-- `refresh_oauth_token` of the source simply delegates to
`get_oauth_token`. -/
def refresh_oauth_token (resp : TokenResponse) (st : ClientState) :
    ClientState × Option ApiError :=
  get_oauth_token resp st

/-- An apostrophe, kept out of string literals. -/
def apos : String := String.singleton (Char.ofNat 39)

/-- The headers installed by `__init__` after the first token
acquisition (`self.headers.update({...})`). -/
def initHeaders (token_type access_token : String) : List (String × String) :=
  [("Authorization", token_type ++ " " ++ access_token),
   ("Accept", "application/json"),
   ("Content-Type", "application/x-www-form-urlencoded")]

/-- The company-scoped base URL derived in `__init__`. -/
def base_url (tenant_id environment company : String) : String :=
  "https://api.businesscentral.dynamics.com/v2.0/" ++ tenant_id ++ "/" ++
    environment ++ "/ODataV4/Company(" ++ apos ++ company ++ apos ++ ")/"

/-- The tail of `__init__`: acquire a token (the raised exception
propagates out of the constructor) and install the session headers. -/
def initClient (tokenResp : TokenResponse) : Except ApiError ClientState :=
  let st0 : ClientState := { access_token := "", token_type := "", headers := [] }
  match get_oauth_token tokenResp st0 with
  | (_, some e) => Except.error e
  | (st1, none) =>
      Except.ok { st1 with headers := initHeaders st1.token_type st1.access_token }

/-- Everything up to and including the last `/` of a character list
(the prefix `urljoin` keeps when resolving a relative reference that
replaces the final path segment). -/
def upToLastSlashData (l : List Char) : List Char :=
  (l.reverse.dropWhile (fun c => c != '/')).reverse

/-- Whether a URL string carries an explicit http(s) scheme. -/
def hasScheme (url : String) : Bool :=
  url.data.take 7 = "http://".data || url.data.take 8 = "https://".data

/-- Model of `urllib.parse.urljoin`, restricted to the references this
client actually produces: an absolute `http(s)` URL is returned
unchanged, the empty reference yields the base, and a relative
reference (such as a bare collection name) replaces everything after
the last `/` of the base. -/
def urljoin (base url : String) : String :=
  if hasScheme url then url
  else if url.data = [] then base
  else String.mk (upToLastSlashData base.data ++ url.data)

/-- One call to the underlying transport
(`super().request(...)`): the request is recorded in the log and the
next scripted response is consumed; an exhausted script is a
network-level failure. -/
def httpSend (script : List HttpResponse) (log : List Request) (req : Request) :
    List HttpResponse × List Request × Except ApiError HttpResponse :=
  match script with
  | [] => ([], log ++ [req], Except.error ApiError.transportError)
  | r :: rest => (rest, log ++ [req], Except.ok r)

/-- `raise_for_status` of `requests`: an exception for 4xx/5xx status
codes, nothing otherwise. -/
def raise_for_status (r : HttpResponse) : Option ApiError :=
  if 400 ≤ r.status then some (ApiError.httpError r.status) else none

/-- The `while nextLink:` loop of `request`.  Each iteration issues a
request against the next link exactly as given (no params), checks the
status, and executes
`response.json()[value].extend(nextLink_response.json()[value])`:
since `.json()` re-parses the body each call, the extended list is a
fresh copy that is immediately discarded (`_extended` below), and the
loop proceeds to the following link.  Returns the final log, the
remaining script, and the outcome. -/
def paginate (headers : List (String × String)) (method : String)
    (firstValue : List String) :
    List HttpResponse → Option String → List Request →
    List Request × List HttpResponse × Except ApiError (List String)
  | script, none, log => (log, script, Except.ok firstValue)
  | [], some link, log =>
      (log ++ [{ url := link, method := method, headers := headers, params := none }],
       [], Except.error ApiError.transportError)
  | r :: rest, some link, log =>
      let log1 :=
        log ++ [{ url := link, method := method, headers := headers, params := none }]
      match raise_for_status r with
      | some e => (log1, rest, Except.error e)
      | none =>
          let _extended := firstValue ++ r.body.value
          paginate headers method firstValue rest r.body.nextLink log1

/-- Outcome of `request`: for GET the source returns
`response.json().get(value)` (the value array of the first response);
for any other method it returns the parsed body as-is. -/
inductive ReqOutcome where
  | records (value : List String)
  | body (b : Body)
  deriving DecidableEq

/-- Result of one call to `request`: the requests issued to the
transport in order, how many times `refresh_oauth_token` ran, the final
client state, and the returned value or raised exception. -/
structure ReqResult where
  log : List Request
  refreshCount : Nat
  state : ClientState
  outcome : Except ApiError ReqOutcome

/-- The part of `request` after the 401-recovery block:
`response.raise_for_status()` followed by the GET pagination loop, or
the body itself for other methods. -/
def afterAuth (st : ClientState) (log : List Request) (rc : Nat)
    (script : List HttpResponse) (method : String) (resp : HttpResponse) :
    ReqResult :=
  match raise_for_status resp with
  | some e => { log := log, refreshCount := rc, state := st, outcome := Except.error e }
  | none =>
      if method = "GET" then
        let (log2, _script2, out) :=
          paginate st.headers method resp.body.value script resp.body.nextLink log
        { log := log2, refreshCount := rc, state := st,
          outcome := out.map ReqOutcome.records }
      else
        { log := log, refreshCount := rc, state := st,
          outcome := Except.ok (ReqOutcome.body resp.body) }

/-- `request` of the source.  `tokenResp` is what the identity service
will answer if a refresh happens; `script` is the transport double.
The URL is resolved against the base once; on a 401 the client
refreshes the token (note: `get_oauth_token` does not touch
`self.headers`) and reissues the same endpoint/method/params with
`self.headers` once; then `raise_for_status` and, for GET, the
pagination loop. -/
def request (base : String) (st : ClientState) (tokenResp : TokenResponse)
    (script : List HttpResponse) (url method : String) (params : Option Params) :
    ReqResult :=
  let endpoint := urljoin base url
  let req0 : Request :=
    { url := endpoint, method := method, headers := st.headers, params := params }
  match httpSend script [] req0 with
  | (_, log1, Except.error e) =>
      { log := log1, refreshCount := 0, state := st, outcome := Except.error e }
  | (script1, log1, Except.ok r0) =>
      if r0.status = 401 then
        match refresh_oauth_token tokenResp st with
        | (st1, some e) =>
            { log := log1, refreshCount := 1, state := st1, outcome := Except.error e }
        | (st1, none) =>
            let req1 : Request :=
              { url := endpoint, method := method, headers := st1.headers,
                params := params }
            match httpSend script1 log1 req1 with
            | (_, log2, Except.error e) =>
                { log := log2, refreshCount := 1, state := st1,
                  outcome := Except.error e }
            | (script2, log2, Except.ok r1) =>
                afterAuth st1 log2 1 script2 method r1
      else
        afterAuth st log1 0 script1 method r0

/-- Name of the custom API page entity exposing the Customer table. -/
def CUSTOMER_TABLE_ENDPOINT : String := "SQLCustomer"

/-- Name of the custom API page entity exposing the Item table. -/
def PRODUCT_TABLE_ENDPOINT : String := "SQLProduct"

/-- `get_customers` of the source: build the parameters (a raised
`TypeError` propagates) and issue a GET against the customer
collection endpoint with them. -/
def get_customers (base : String) (st : ClientState) (tokenResp : TokenResponse)
    (script : List HttpResponse)
    (createdAt modifiedAt orderBy select offset limit filterExpression :
      Option String) : Except ApiError ReqResult :=
  match create_parameters createdAt modifiedAt orderBy select offset limit
      filterExpression with
  | Except.error e => Except.error e
  | Except.ok ps =>
      Except.ok (request base st tokenResp script CUSTOMER_TABLE_ENDPOINT "GET"
        (some ps))

/-- `get_products` of the source. -/
def get_products (base : String) (st : ClientState) (tokenResp : TokenResponse)
    (script : List HttpResponse)
    (createdAt modifiedAt orderBy select offset limit filterExpression :
      Option String) : Except ApiError ReqResult :=
  match create_parameters createdAt modifiedAt orderBy select offset limit
      filterExpression with
  | Except.error e => Except.error e
  | Except.ok ps =>
      Except.ok (request base st tokenResp script PRODUCT_TABLE_ENDPOINT "GET"
        (some ps))

/-- `get_customer` of the source: delegate to `get_customers` with
`filterExpression = "no eq " ++ apos ++ customer_id ++ apos`. -/
def get_customer (base : String) (st : ClientState) (tokenResp : TokenResponse)
    (script : List HttpResponse) (customer_id : String) :
    Except ApiError ReqResult :=
  get_customers base st tokenResp script none none none none none none
    (some ("no eq " ++ apos ++ customer_id ++ apos))

/-- `get_product` of the source. -/
def get_product (base : String) (st : ClientState) (tokenResp : TokenResponse)
    (script : List HttpResponse) (product_id : String) :
    Except ApiError ReqResult :=
  get_products base st tokenResp script none none none none none none
    (some ("no eq " ++ apos ++ product_id ++ apos))

/-! Helper lemmas shared by the claim theorems. -/

theorem any_key_map_replace (t : Params) (k v q : String) (h : ¬ k = q) :
    (t.map (fun p => if p.1 = k then (k, v) else p)).any (fun p => p.1 = q) =
      t.any (fun p => p.1 = q) := by
  induction t with
  | nil => rfl
  | cons p tl ih =>
      simp only [List.map_cons, List.any_cons, ih]
      by_cases hp : p.1 = k
      · simp [hp, h]
      · simp [hp]

theorem hasKey_updateParam (ps : Params) (k v q : String) (h : ¬ k = q) :
    hasKey (updateParam ps k v) q = hasKey ps q := by
  unfold hasKey updateParam
  split
  · exact any_key_map_replace ps k v q h
  · simp [h]

theorem hasKey_optUpdate (ps : Params) (k q : String) (o : Option String)
    (h : ¬ k = q) : hasKey (optUpdate ps k o) q = hasKey ps q := by
  cases o with
  | none => rfl
  | some v => exact hasKey_updateParam ps k v q h

theorem hasKey_filter_after_opts (ps : Params)
    (orderBy select offset limit : Option String) :
    hasKey (optUpdate (optUpdate (optUpdate (optUpdate ps "$orderby" orderBy)
      "$select" select) "$skip" offset) "$top" limit) "$filter" =
      hasKey ps "$filter" := by
  rw [hasKey_optUpdate _ _ _ _ (by decide), hasKey_optUpdate _ _ _ _ (by decide),
    hasKey_optUpdate _ _ _ _ (by decide), hasKey_optUpdate _ _ _ _ (by decide)]

theorem filterStepExpression_dup (ps : Params) (f : String)
    (h : hasKey ps "$filter" = true) :
    filterStepExpression ps (some f) = Except.error ApiError.typeError := by
  simp [filterStepExpression, h]

theorem paginate_log_extends (headers : List (String × String)) (method : String)
    (firstValue : List String) :
    ∀ (script : List HttpResponse) (nl : Option String) (log : List Request),
      ∃ t, (paginate headers method firstValue script nl log).1 = log ++ t := by
  intro script
  induction script with
  | nil =>
      intro nl log
      cases nl with
      | none => exact ⟨[], by simp [paginate]⟩
      | some link => exact ⟨_, rfl⟩
  | cons r rest ih =>
      intro nl log
      cases nl with
      | none => exact ⟨[], by simp [paginate]⟩
      | some link =>
          rcases hs : raise_for_status r with _ | e
          · obtain ⟨t, ht⟩ := ih r.body.nextLink
              (log ++ [(⟨link, method, headers, none⟩ : Request)])
            refine ⟨(⟨link, method, headers, none⟩ : Request) :: t, ?_⟩
            simp only [paginate, hs, ht]
            simp
          · exact ⟨[(⟨link, method, headers, none⟩ : Request)],
              by simp [paginate, hs]⟩

theorem afterAuth_log_extends (st : ClientState) (log : List Request) (rc : Nat)
    (script : List HttpResponse) (method : String) (resp : HttpResponse) :
    ∃ t, (afterAuth st log rc script method resp).log = log ++ t := by
  unfold afterAuth
  rcases hs : raise_for_status resp with _ | e
  · by_cases hm : method = "GET"
    · subst hm
      obtain ⟨t, ht⟩ := paginate_log_extends st.headers "GET" resp.body.value script
        resp.body.nextLink log
      refine ⟨t, ?_⟩
      rcases hp : paginate st.headers "GET" resp.body.value script resp.body.nextLink
        log with ⟨lg, sc, out⟩
      rw [hp] at ht
      simp at ht
      simp [hp, ht]
    · exact ⟨[], by simp [hm]⟩
  · exact ⟨[], by simp⟩

theorem afterAuth_log_head (st : ClientState) (log : List Request) (rc : Nat)
    (script : List HttpResponse) (method : String) (resp : HttpResponse)
    (a : Request) (h : log.head? = some a) :
    (afterAuth st log rc script method resp).log.head? = some a := by
  obtain ⟨t, ht⟩ := afterAuth_log_extends st log rc script method resp
  rw [ht]
  cases log with
  | nil => simp at h
  | cons x xs => simpa using h

theorem request_log_head (base : String) (st : ClientState)
    (tokenResp : TokenResponse) (script : List HttpResponse) (url method : String)
    (params : Option Params) :
    (request base st tokenResp script url method params).log.head? =
      some { url := urljoin base url, method := method, headers := st.headers,
             params := params } := by
  unfold request
  cases script with
  | nil => rfl
  | cons r0 rest =>
      simp only [httpSend]
      by_cases h401 : r0.status = 401
      · rw [if_pos h401]
        rcases hr : refresh_oauth_token tokenResp st with ⟨st1, err⟩
        cases err with
        | some e => rfl
        | none =>
            cases rest with
            | nil => rfl
            | cons r1 rest1 =>
                apply afterAuth_log_head
                rfl
      · rw [if_neg h401]
        apply afterAuth_log_head
        rfl

theorem paginate_fail (headers : List (String × String)) (method : String)
    (fv : List String) :
    ∀ (pre : List HttpResponse) (l0 : String) (r : HttpResponse)
      (rest : List HttpResponse) (log : List Request),
      (∀ p ∈ pre, p.status < 400 ∧ p.body.nextLink ≠ none) → 400 ≤ r.status →
      (paginate headers method fv (pre ++ r :: rest) (some l0) log).2.2 =
        Except.error (ApiError.httpError r.status) := by
  intro pre
  induction pre with
  | nil =>
      intro l0 r rest log _ hr
      simp [paginate, raise_for_status, hr]
  | cons p tl ih =>
      intro l0 r rest log hpre hr
      obtain ⟨hps, hpn⟩ := hpre p (List.mem_cons_self p tl)
      obtain ⟨l1, hl1⟩ := Option.ne_none_iff_exists'.mp hpn
      have hok : raise_for_status p = none := by
        simp [raise_for_status, Nat.not_le.mpr hps]
      simp only [List.cons_append, paginate, hok, hl1]
      exact ih l1 r rest _ (fun q hq => hpre q (List.mem_cons_of_mem p hq)) hr

/-! Concrete scenarios used by the claims that evaluate the code at a
specific failing input. -/

/-- A two-page GET: the first response carries one record and a next
link, the second carries one record and no next link. -/
def paginationScenario : ReqResult :=
  request "https://bc/base/"
    { access_token := "tok", token_type := "Bearer",
      headers := initHeaders "Bearer" "tok" }
    { access_token := none, token_type := none }
    [{ status := 200,
       body := { value := ["r1"], nextLink := some "https://bc/base/items2" } },
     { status := 200, body := { value := ["r2"], nextLink := none } }]
    "items" "GET" none

/-- A 401-then-200 GET: the identity service would hand out the new
token `newTok` on refresh; the client state holds `oldTok` and the
headers installed by `__init__` for it. -/
def staleHeaderScenario : ReqResult :=
  request "https://bc/base/"
    { access_token := "oldTok", token_type := "Bearer",
      headers := initHeaders "Bearer" "oldTok" }
    { access_token := some "newTok", token_type := some "Bearer" }
    [{ status := 401, body := { value := [], nextLink := none } },
     { status := 200, body := { value := ["X"], nextLink := none } }]
    "SQLCustomer" "GET" (some [])

/-- A 401-then-401 GET with a successful token refresh in between. -/
def unauthorizedTwiceScenario : ReqResult :=
  request "https://bc/base/"
    { access_token := "oldTok", token_type := "Bearer",
      headers := initHeaders "Bearer" "oldTok" }
    { access_token := some "newTok", token_type := some "Bearer" }
    [{ status := 401, body := { value := [], nextLink := none } },
     { status := 401, body := { value := [], nextLink := none } }]
    "SQLCustomer" "GET" (some [])

/-! The claim theorems. -/

/-- Claim C1, evaluated at the failing input: with both `createdAt` and
`modifiedAt` non-empty, `create_parameters` does not produce the
AND-join `systemCreatedAt gt ... and systemModifiedAt gt ...` the claim
describes; the `self.params[$filter] =+ ...` line applies unary plus to
a `str` and raises `TypeError`, so no parameter map results at all. -/
theorem create_parameters_both_times_typeError :
    create_parameters (some "2024-01-01T00:00:00Z") (some "2024-02-01T00:00:00Z")
      none none none none none = Except.error ApiError.typeError := rfl

/-- Claim C2, evaluated at the failing input: for a GET whose pages
chain p1 (one record, next link) → p2 (one record, no next link), the
source walks both pages (two requests are issued) but
`response.json()[value].extend(...)` extends a fresh re-parse of the
first body that is immediately discarded, so `request` returns only the
first page's single record instead of the two-record concatenation. -/
theorem request_pagination_drops_tail_pages :
    paginationScenario.outcome = Except.ok (ReqOutcome.records ["r1"])
    ∧ paginationScenario.log.length = 2
    ∧ (Except.ok (ReqOutcome.records ["r1"]) : Except ApiError ReqOutcome) ≠
        Except.ok (ReqOutcome.records ["r1", "r2"]) := by
  refine ⟨rfl, rfl, ?_⟩
  simp

/-- Claim C3, evaluated at the failing scenario: on a 401 the client
refreshes exactly once and retries exactly once, and the stored
`access_token` does become `newTok` — but `get_oauth_token` never
touches `self.headers`, so both issued requests carry the original
`Authorization: Bearer oldTok` header and the retry does not carry the
newly acquired token, contrary to the claim. -/
theorem request_401_retry_stale_headers :
    initClient { access_token := some "oldTok", token_type := some "Bearer" }
      = Except.ok { access_token := "oldTok", token_type := "Bearer",
                    headers := initHeaders "Bearer" "oldTok" }
    ∧ staleHeaderScenario.refreshCount = 1
    ∧ staleHeaderScenario.state.access_token = "newTok"
    ∧ staleHeaderScenario.log =
        [{ url := "https://bc/base/SQLCustomer", method := "GET",
           headers := initHeaders "Bearer" "oldTok", params := some [] },
         { url := "https://bc/base/SQLCustomer", method := "GET",
           headers := initHeaders "Bearer" "oldTok", params := some [] }]
    ∧ ("Authorization", "Bearer oldTok") ∈ initHeaders "Bearer" "oldTok"
    ∧ ("Authorization", "Bearer newTok") ∉ initHeaders "Bearer" "oldTok"
    ∧ staleHeaderScenario.outcome = Except.ok (ReqOutcome.records ["X"]) := by
  refine ⟨rfl, rfl, rfl, rfl, by decide, by decide, rfl⟩

/-- Claim C4 as stated is false: in the 401-then-401 scenario the
exception raised is the generic HTTP status error produced by
`raise_for_status` (requests' `HTTPError` for status 401), not the
authentication exception of `get_oauth_token` — though refresh did run
exactly once. -/
theorem request_401_twice_error_is_http :
    unauthorizedTwiceScenario.outcome = Except.error (ApiError.httpError 401)
    ∧ unauthorizedTwiceScenario.outcome ≠ Except.error ApiError.authenticationError
    ∧ unauthorizedTwiceScenario.refreshCount = 1 := by
  refine ⟨rfl, ?_, rfl⟩
  rw [show unauthorizedTwiceScenario.outcome =
    Except.error (ApiError.httpError 401) from rfl]
  simp

/-- Claim C4 (amended): for every request whose first response is 401
and whose retried response is again 401, `request` raises the generic
HTTP status error for 401 coming from `raise_for_status`, and the token
refresh was invoked exactly once during that call — the 401 recovery is
never looped. -/
theorem request_401_twice_http_once (base : String) (st : ClientState)
    (tok ty : String) (b0 b1 : Body) (rest : List HttpResponse)
    (url method : String) (params : Option Params) :
    (request base st { access_token := some tok, token_type := some ty }
        ({ status := 401, body := b0 } :: { status := 401, body := b1 } :: rest)
        url method params).outcome = Except.error (ApiError.httpError 401)
    ∧ (request base st { access_token := some tok, token_type := some ty }
        ({ status := 401, body := b0 } :: { status := 401, body := b1 } :: rest)
        url method params).refreshCount = 1 := by
  constructor <;>
    simp [request, httpSend, refresh_oauth_token, get_oauth_token, afterAuth,
      raise_for_status]

/-- Claim C5: `get_oauth_token` raises its authentication exception
exactly when the identity response has no `access_token` key; on that
failure the stored `access_token` and `token_type` are untouched, and
on a response carrying both keys the two stored fields are
unconditionally replaced with the response values. -/
theorem get_oauth_token_contract (resp : TokenResponse) (st : ClientState) :
    ((get_oauth_token resp st).2 = some ApiError.authenticationError ↔
      resp.access_token = none)
    ∧ (resp.access_token = none → (get_oauth_token resp st).1 = st)
    ∧ (∀ tok ty, resp.access_token = some tok → resp.token_type = some ty →
        get_oauth_token resp st =
          ({ st with access_token := tok, token_type := ty }, none)) := by
  obtain ⟨a, t⟩ := resp
  cases a <;> cases t <;> simp [get_oauth_token]

/-- Witness for `get_oauth_token_contract` at concrete inputs. -/
theorem get_oauth_token_contract_witness :
    ((get_oauth_token { access_token := none, token_type := none }
        { access_token := "old", token_type := "Bearer", headers := [] }).2
      = some ApiError.authenticationError)
    ∧ ((get_oauth_token { access_token := none, token_type := none }
        { access_token := "old", token_type := "Bearer", headers := [] }).1
      = { access_token := "old", token_type := "Bearer", headers := [] })
    ∧ (get_oauth_token { access_token := some "new", token_type := some "Bearer" }
        { access_token := "old", token_type := "Bearer", headers := [] }
      = ({ access_token := "new", token_type := "Bearer", headers := [] }, none)) := by
  refine ⟨?_, ?_, ?_⟩
  · exact (get_oauth_token_contract
      { access_token := none, token_type := none }
      { access_token := "old", token_type := "Bearer", headers := [] }).1.mpr rfl
  · exact (get_oauth_token_contract
      { access_token := none, token_type := none }
      { access_token := "old", token_type := "Bearer", headers := [] }).2.1 rfl
  · exact (get_oauth_token_contract
      { access_token := some "new", token_type := some "Bearer" }
      { access_token := "old", token_type := "Bearer", headers := [] }).2.2
      "new" "Bearer" rfl rfl

/-- Claim C6: for every call to `request`, the relative collection name
`SQLProduct` is resolved against a base URL ending in a slash to
`<base>SQLProduct`, while the next-link URL obtained during pagination
is requested exactly as given — whatever string it is, it is never
re-joined with the base. -/
theorem request_url_resolution (pre : String) (st : ClientState)
    (tokenResp : TokenResponse) (script : List HttpResponse)
    (params : Option Params) (v0 v1 : List String) (link : String) :
    (request (pre ++ "/") st tokenResp
        ({ status := 200, body := { value := v0, nextLink := some link } } ::
         { status := 200, body := { value := v1, nextLink := none } } :: script)
        "SQLProduct" "GET" params).log =
      [{ url := (pre ++ "/") ++ "SQLProduct", method := "GET",
         headers := st.headers, params := params },
       { url := link, method := "GET", headers := st.headers, params := none }] := by
  have hj : urljoin (pre ++ "/") "SQLProduct" = (pre ++ "/") ++ "SQLProduct" := by
    have h1 : hasScheme "SQLProduct" = false := by decide
    have h2 : ¬ "SQLProduct".data = [] := by decide
    unfold urljoin
    rw [h1, if_neg h2]
    cases pre with
    | mk l =>
      have h3 : upToLastSlashData ((String.mk l ++ "/").data) =
          (String.mk l ++ "/").data := by
        show upToLastSlashData (l ++ ['/']) = l ++ ['/']
        simp [upToLastSlashData, List.dropWhile]
      rw [h3]
      show String.mk ((l ++ ['/']) ++ "SQLProduct".data) = _
      exact congrArg String.mk (by simp)
  simp [request, httpSend, afterAuth, raise_for_status, paginate, hj]

/-- Claim C7: for every id, `get_customer` builds a parameter map whose
only entry is `$filter` with value `no eq` followed by the id in single
quotes, and issues a GET against the customer collection endpoint with
exactly that map; instantiated at id `060.166.0574` as well. -/
theorem get_customer_filter_request (base : String) (st : ClientState)
    (tokenResp : TokenResponse) (script : List HttpResponse)
    (customer_id : String) :
    create_parameters none none none none none none
        (some ("no eq " ++ apos ++ customer_id ++ apos))
      = Except.ok [("$filter", "no eq " ++ apos ++ customer_id ++ apos)]
    ∧ get_customer base st tokenResp script customer_id
      = Except.ok (request base st tokenResp script CUSTOMER_TABLE_ENDPOINT "GET"
          (some [("$filter", "no eq " ++ apos ++ customer_id ++ apos)]))
    ∧ (request base st tokenResp script CUSTOMER_TABLE_ENDPOINT "GET"
          (some [("$filter", "no eq " ++ apos ++ customer_id ++ apos)])).log.head?
      = some { url := urljoin base CUSTOMER_TABLE_ENDPOINT, method := "GET",
               headers := st.headers,
               params := some [("$filter", "no eq " ++ apos ++ customer_id ++ apos)] }
    ∧ get_customer base st tokenResp script "060.166.0574"
      = Except.ok (request base st tokenResp script CUSTOMER_TABLE_ENDPOINT "GET"
          (some [("$filter", "no eq " ++ apos ++ "060.166.0574" ++ apos)])) := by
  refine ⟨rfl, rfl, ?_, rfl⟩
  exact request_log_head base st tokenResp script CUSTOMER_TABLE_ENDPOINT "GET"
    (some [("$filter", "no eq " ++ apos ++ customer_id ++ apos)])

/-- Claim C8: if a page fetch during pagination fails (the chain walks
any number of successful pages and then meets a response with a
non-success status), the whole `request` call raises the HTTP status
error and returns no result — no partial array of the pages seen before
the failure is ever returned. -/
theorem request_pagination_failure_aborts (base : String) (st : ClientState)
    (tokenResp : TokenResponse) (url : String) (params : Option Params)
    (v0 : List String) (l0 : String) (pre rest : List HttpResponse)
    (r : HttpResponse)
    (hpre : ∀ p ∈ pre, p.status < 400 ∧ p.body.nextLink ≠ none)
    (hr : 400 ≤ r.status) :
    (request base st tokenResp
        ({ status := 200, body := { value := v0, nextLink := some l0 } } ::
          (pre ++ r :: rest))
        url "GET" params).outcome = Except.error (ApiError.httpError r.status) := by
  have hfail := paginate_fail st.headers "GET" v0 pre l0 r rest
    [{ url := urljoin base url, method := "GET", headers := st.headers,
       params := params }] hpre hr
  unfold request
  simp only [httpSend]
  rw [if_neg (by simp : ¬ (200 : Nat) = 401)]
  unfold afterAuth
  rcases hp : paginate st.headers "GET" v0 (pre ++ r :: rest) (some l0)
    [{ url := urljoin base url, method := "GET", headers := st.headers,
       params := params }] with ⟨lg, sc, out⟩
  rw [hp] at hfail
  simp only at hfail
  simp [raise_for_status, hp, hfail, Except.map]

/-- Witness for `request_pagination_failure_aborts`: one good page is
followed by a 500 next-link response; the whole call errors. -/
theorem request_pagination_failure_aborts_witness :
    (request "https://bc/base/"
        { access_token := "tok", token_type := "Bearer",
          headers := initHeaders "Bearer" "tok" }
        { access_token := none, token_type := none }
        [{ status := 200, body := { value := ["a"], nextLink := some "https://bc/p2" } },
         { status := 200, body := { value := ["b"], nextLink := some "https://bc/p3" } },
         { status := 500, body := { value := [], nextLink := none } }]
        "items" "GET" none).outcome = Except.error (ApiError.httpError 500) := by
  exact request_pagination_failure_aborts "https://bc/base/"
    { access_token := "tok", token_type := "Bearer",
      headers := initHeaders "Bearer" "tok" }
    { access_token := none, token_type := none } "items" none ["a"] "https://bc/p2"
    [{ status := 200, body := { value := ["b"], nextLink := some "https://bc/p3" } }]
    [] { status := 500, body := { value := [], nextLink := none } }
    (by decide) (by decide)

/-- Claim C9: `create_parameters` with all seven inputs empty/omitted
produces an empty parameter map. -/
theorem create_parameters_all_empty :
    create_parameters none none none none none none none = Except.ok [] := rfl

/-- Claim C10: whenever two filter-contributing inputs are both
non-empty — `createdAt` together with `modifiedAt`, or
`filterExpression` together with an already-present `$filter` entry
(present exactly when `createdAt` or `modifiedAt` was non-empty) — the
combining branch assigns unary plus of a `str` and `create_parameters`
raises `TypeError` instead of returning a map. -/
theorem create_parameters_two_filters_typeError
    (createdAt modifiedAt orderBy select offset limit filterExpression :
      Option String)
    (h : (createdAt.isSome ∧ modifiedAt.isSome) ∨
         (filterExpression.isSome ∧ (createdAt.isSome ∨ modifiedAt.isSome))) :
    create_parameters createdAt modifiedAt orderBy select offset limit
      filterExpression = Except.error ApiError.typeError := by
  rcases h with ⟨hc, hm⟩ | ⟨hf, hcm⟩
  · obtain ⟨a, ha⟩ := Option.isSome_iff_exists.mp hc
    obtain ⟨b, hb⟩ := Option.isSome_iff_exists.mp hm
    subst ha hb
    simp [create_parameters, filterStepModified, optUpdate, updateParam, hasKey]
  · obtain ⟨f, hf⟩ := Option.isSome_iff_exists.mp hf
    subst hf
    rcases hcm with hc | hm
    · obtain ⟨a, ha⟩ := Option.isSome_iff_exists.mp hc
      subst ha
      cases modifiedAt with
      | some b =>
          simp [create_parameters, filterStepModified, optUpdate, updateParam, hasKey]
      | none =>
          show filterStepExpression (optUpdate (optUpdate (optUpdate (optUpdate
            (updateParam [] "$filter" ("systemCreatedAt gt " ++ a)) "$orderby" orderBy)
            "$select" select) "$skip" offset) "$top" limit) (some f)
            = Except.error ApiError.typeError
          apply filterStepExpression_dup
          rw [hasKey_filter_after_opts]
          simp [hasKey, updateParam]
    · obtain ⟨b, hb⟩ := Option.isSome_iff_exists.mp hm
      subst hb
      cases createdAt with
      | some a =>
          simp [create_parameters, filterStepModified, optUpdate, updateParam, hasKey]
      | none =>
          show filterStepExpression (optUpdate (optUpdate (optUpdate (optUpdate
            (updateParam [] "$filter" ("systemModifiedAt gt " ++ b)) "$orderby" orderBy)
            "$select" select) "$skip" offset) "$top" limit) (some f)
            = Except.error ApiError.typeError
          apply filterStepExpression_dup
          rw [hasKey_filter_after_opts]
          simp [hasKey, updateParam]

/-- Witness for `create_parameters_two_filters_typeError` at a concrete
input with both time filters non-empty. -/
theorem create_parameters_two_filters_typeError_witness :
    create_parameters (some "2024-05-01T00:00:00Z") (some "2024-06-01T00:00:00Z")
      none none none none none = Except.error ApiError.typeError := by
  exact create_parameters_two_filters_typeError (some "2024-05-01T00:00:00Z")
    (some "2024-06-01T00:00:00Z") none none none none none (Or.inl ⟨rfl, rfl⟩)

end BusinessCentralAPIClient
